import Mathlib

/-!
# Verification of the Urban-Congestion land-cover pipeline

A shallow embedding of `src/congestion_features.py` (and the derived
quantities recomputed in `src/app.py`) together with proofs about the
embedded definitions.

Modelling conventions:
* Python floats are modelled as exact rationals (`ℚ`); `np.pi` is the exact
  rational value of the IEEE-754 double `math.pi`.
* The open-ended OSM tag dictionary is modelled by a record holding exactly
  the keys the code reads (`building`, `highway`, `width`, `lanes`,
  `natural`, `waterway`, `name`); a missing key is `none`.
* A raw geometry point is a dict that either carries both `lon` and `lat`
  (`coords = some (lon, lat)`) or is malformed (`coords = none`, so the
  subscript `p["lon"]`/`p["lat"]` raises `KeyError`).
* Shapely geometry (polygons `P`, line strings `L`) and the pyproj forward
  transform are external libraries: they are abstracted as a record of
  operations `GeomOps P L`.  `clipLP l b` returns the list of connected
  components of `l.intersection(b)` (`[]` for an empty intersection); the
  shapely length of a multi-part geometry is the sum of its parts, so the
  total clipped length is `segsLen` of that list.
* Fallible Python code is embedded in `Except PyError`; a bare
  `try/except: continue`-guarded block is a function into `Option`
  (`none` = the feature is skipped, whether by `continue` or by a caught
  exception).  Exceptions raised *outside* any `try` propagate as
  `Except.error`.
* The network is an oracle `post : ℕ → String → PostOutcome` giving the
  outcome of `requests.post` on (attempt index, endpoint URL).
-/

namespace UrbanCongestion

/-- Errors the Python code can raise (propagate out of a function).
`overpassFailed` is `RuntimeError("Overpass failed")`, the concrete
realisation of the spec's `DataFetchError`.  `invalidInput` is the spec's
`InvalidInputError`; it exists in this taxonomy so that claims about it can
be stated, but the code never raises it. -/
inductive PyError
  | keyError
  | geometryError
  | zeroDivision
  | overpassFailed
  | invalidInput
  deriving DecidableEq

instance {ε α : Type} [DecidableEq ε] [DecidableEq α] : DecidableEq (Except ε α) := fun x y =>
  match x, y with
  | .error a, .error b =>
    if h : a = b then .isTrue (by rw [h]) else .isFalse (by simp [h])
  | .error _, .ok _ => .isFalse (by simp)
  | .ok _, .error _ => .isFalse (by simp)
  | .ok a, .ok b =>
    if h : a = b then .isTrue (by rw [h]) else .isFalse (by simp [h])

/-- `Except.isOk` as a plain boolean (avoids relying on library helpers). -/
def isOkE {ε α : Type} : Except ε α → Bool
  | .ok _ => true
  | .error _ => false

/-- The OSM tag keys read by the pipeline; a missing key is `none`. -/
structure Tags where
  building : Option String := none
  highway : Option String := none
  width : Option String := none
  lanes : Option String := none
  natural : Option String := none
  waterway : Option String := none
  name : Option String := none
  deriving DecidableEq

/-- One entry of an element's `geometry` list: a point dict with `lon`/`lat`
keys, or a malformed dict missing them. -/
structure OsmPoint where
  coords : Option (ℚ × ℚ)
  deriving DecidableEq

/-- One entry of the Overpass response's `elements` list. -/
structure Element where
  type : String
  tags : Tags := {}
  geometry : List OsmPoint := []
  deriving DecidableEq

/-- Python truthiness of an optional string (`not tags.get(k)`):
`None` and `""` are falsy. -/
def pyTruthyS : Option String → Bool
  | none => false
  | some s => s ≠ ""

/-- Python `str.strip()` restricted to whitespace (the call sites only
handle whitespace-padded tag values). -/
def pyStrip (s : String) : String :=
  ⟨((s.data.dropWhile Char.isWhitespace).reverse.dropWhile Char.isWhitespace).reverse⟩

/-- Python `str.lower()`. -/
def pyLower (s : String) : String :=
  ⟨s.data.map Char.toLower⟩

/-- The abstract interface to shapely/pyproj used by the pipeline.
`P` is the type of (multi)polygons, `L` of line strings.
`mkPolygon`/`mkLine`/`interPP` may raise (`Except.error`), mirroring
shapely constructors and `intersection`. -/
structure GeomOps (P L : Type) where
  buffer : ℚ × ℚ → ℚ → P
  mkPolygon : List (ℚ × ℚ) → Except Unit P
  isValidP : P → Bool
  makeValidP : P → P
  interPP : P → P → Except Unit P
  isEmptyP : P → Bool
  areaP : P → ℚ
  mkLine : List (ℚ × ℚ) → Except Unit L
  lenL : L → ℚ
  clipLP : L → P → List L

/-- `exact rational value of the IEEE-754 double `math.pi` / `np.pi`. -/
def npPi : ℚ := 884279719003555 / 281474976710656

/-- `DEFAULT_WIDTHS` from `congestion_features.py` lines 18-21. -/
def DEFAULT_WIDTHS : List (String × ℚ) :=
  [("motorway", 24), ("trunk", 22), ("primary", 18), ("secondary", 14),
   ("tertiary", 10), ("residential", 7), ("unclassified", 7), ("service", 6)]

/-- Python `dict` lookup on an association list. -/
def dwLookup : List (String × ℚ) → String → Option ℚ
  | [], _ => none
  | (k, v) :: rest, s => if k = s then some v else dwLookup rest s

/-- `DEFAULT_WIDTHS.get(tags.get("highway"), 7)`. -/
def defaultWidthOf : Option String → ℚ
  | none => 7
  | some s => (dwLookup DEFAULT_WIDTHS s).getD 7

/-- `RETRY` constant. -/
def RETRY : ℕ := 3

/-- `OVERPASS_ENDPOINTS` constant. -/
def OVERPASS_ENDPOINTS : List String := ["https://overpass-api.de/api/interpreter"]

/-- Outcome of one `requests.post` call: the call itself raised, or an HTTP
response with a status code and a body whose JSON parse may fail.  A
successful body is the parsed `elements` list (`data.get("elements", [])`). -/
inductive PostOutcome
  | netError
  | response (status : ℕ) (body : Except Unit (List Element))
  deriving DecidableEq

/-- One iteration of the inner `try` in `_overpass` (lines 41-49):
`some data` when the request succeeded with a non-retried status and valid
JSON, `none` when the iteration falls through to the next endpoint/attempt
(transient status, `raise_for_status`, network error, or JSON error). -/
def tryOnce : PostOutcome → Option (List Element)
  | .netError => none
  | .response status body =>
    if status = 429 ∨ status = 500 ∨ status = 502 ∨ status = 503 ∨ status = 504 then none
    else if 400 ≤ status ∧ status < 600 then none
    else
      match body with
      | .ok d => some d
      | .error _ => none

/-- `for url in OVERPASS_ENDPOINTS` for a fixed attempt index. -/
def scanEndpoints (post : ℕ → String → PostOutcome) (a : ℕ) : List String → Option (List Element)
  | [] => none
  | u :: rest =>
    match tryOnce (post a u) with
    | some d => some d
    | none => scanEndpoints post a rest

/-- `for _ in range(RETRY)`, over the list of attempt indices. -/
def scanAttempts (post : ℕ → String → PostOutcome) : List ℕ → Option (List Element)
  | [] => none
  | a :: rest =>
    match scanEndpoints post a OVERPASS_ENDPOINTS with
    | some d => some d
    | none => scanAttempts post rest

/-- `_overpass` (lines 37-50): retry loop, raising
`RuntimeError("Overpass failed")` when every attempt on every endpoint
failed. -/
def _overpass (post : ℕ → String → PostOutcome) : Except PyError (List Element) :=
  match scanAttempts post (List.range RETRY) with
  | some d => .ok d
  | none => .error .overpassFailed

/-- `_get_building_type` (lines 53-61). -/
def _get_building_type (tags : Tags) : String :=
  match tags.building with
  | none => "None"
  | some b =>
    if b = "" then "None"
    else
      if pyLower (pyStrip b) = "yes" ∨ pyLower (pyStrip b) = "1" ∨ pyLower (pyStrip b) = "true"
      then "building=yes"
      else "building=" ++ pyLower (pyStrip b)

/-- The coordinate-extraction comprehension
`[(p["lon"], p["lat"]) for p in geom]` (lines 73, 108, 159): it is *not*
inside any `try`, so a malformed point raises a `KeyError` that propagates. -/
def extractCoords : List OsmPoint → Except PyError (List (ℚ × ℚ))
  | [] => .ok []
  | p :: rest =>
    match p.coords with
    | none => .error .keyError
    | some c =>
      match extractCoords rest with
      | .error e => .error e
      | .ok cs => .ok (c :: cs)

/-- The `try` block of `_collect_buildings` (lines 75-93): polygon
construction, validity repair, intersection with the disk, re-repair.
`none` means the feature is skipped (a `continue`, or a caught exception). -/
def buildingTry {P L : Type} (G : GeomOps P L) (buf : P) (pts : List (ℚ × ℚ)) (btype : String) :
    Option (P × String) :=
  match G.mkPolygon pts with
  | .error _ => none
  | .ok poly0 =>
    let poly := if G.isValidP poly0 then poly0 else G.makeValidP poly0
    if G.isValidP poly = false then none
    else
      match G.interPP poly buf with
      | .error _ => none
      | .ok inter0 =>
        if G.isEmptyP inter0 then none
        else
          let inter := if G.isValidP inter0 then inter0 else G.makeValidP inter0
          if G.isValidP inter = false then none
          else some (inter, btype)

/-- `_collect_buildings` (lines 63-94).  Note that the coordinate
extraction is outside the `try`, so its `KeyError` propagates
(`Except.error`), while failures inside the `try` merely skip the feature. -/
def _collect_buildings {P L : Type} (G : GeomOps P L) (fwd : ℚ × ℚ → ℚ × ℚ) (buf : P) :
    List Element → Except PyError (List (P × String))
  | [] => .ok []
  | el :: rest =>
    if pyTruthyS el.tags.building = false then _collect_buildings G fwd buf rest
    else if el.geometry.length < 3 then _collect_buildings G fwd buf rest
    else
      match extractCoords el.geometry with
      | .error e => .error e
      | .ok cs =>
        match _collect_buildings G fwd buf rest with
        | .error e => .error e
        | .ok bs =>
          match buildingTry G buf (List.map fwd cs) (_get_building_type el.tags) with
          | some b => .ok (b :: bs)
          | none => .ok bs

/-- A road record as produced by `_collect_roads` (lines 141-147). -/
structure RawRoad (L : Type) where
  geom : L
  width : Option ℚ
  width_source : Option String
  highway : String
  name : String
  deriving DecidableEq

/-- The three-tier width detection of `_collect_roads` (lines 114-139).
`parse` models `float(str(v).split()[0])`: `some q` when the leading token
of the tag value parses as the number `q`, `none` when that expression
raises (caught by the surrounding `try/except: pass`). -/
def smartWidth (parse : String → Option ℚ) (tags : Tags) : Option ℚ × Option String :=
  let step1 : Option ℚ × Option String :=
    match tags.width with
    | some ws =>
      match parse ws with
      | some w => (some (max 3 w), some "osm")
      | none => (none, none)
    | none => (none, none)
  match step1.1 with
  | some _ => step1
  | none =>
    let step2 : Option ℚ × Option String :=
      match tags.lanes with
      | some ls =>
        match parse ls with
        | some n => (some (max 7 (n * (7 / 2))), some "lanes")
        | none => (none, none)
      | none => (none, none)
    match step2.1 with
    | some _ => step2
    | none => (some (defaultWidthOf tags.highway), some "fallback")

/-- `_collect_roads` (lines 96-148).  There is no `try` around the geometry
handling here: a `KeyError` from coordinate extraction or an error from the
`LineString` constructor propagates. -/
def _collect_roads {P L : Type} (G : GeomOps P L) (fwd : ℚ × ℚ → ℚ × ℚ)
    (parse : String → Option ℚ) : List Element → Except PyError (List (RawRoad L))
  | [] => .ok []
  | el :: rest =>
    if el.type ≠ "way" then _collect_roads G fwd parse rest
    else if el.tags.highway = none then _collect_roads G fwd parse rest
    else if el.geometry.length < 2 then _collect_roads G fwd parse rest
    else
      match extractCoords el.geometry with
      | .error e => .error e
      | .ok cs =>
        match G.mkLine (List.map fwd cs) with
        | .error _ => .error .geometryError
        | .ok line =>
          if G.lenL line < 1 then _collect_roads G fwd parse rest
          else
            match _collect_roads G fwd parse rest with
            | .error e => .error e
            | .ok rs =>
              .ok ({ geom := line, width := (smartWidth parse el.tags).1,
                     width_source := (smartWidth parse el.tags).2,
                     highway := el.tags.highway.getD "",
                     name := el.tags.name.getD "" } :: rs)

/-- The `try` block of `_collect_water` (lines 161-168): `some a` adds area
`a`; `none` adds nothing (skip or caught exception). -/
def waterTry {P L : Type} (G : GeomOps P L) (buf : P) (pts : List (ℚ × ℚ)) : Option ℚ :=
  match G.mkPolygon pts with
  | .error _ => none
  | .ok poly0 =>
    let poly := if G.isValidP poly0 then poly0 else G.makeValidP poly0
    if G.isValidP poly = false then none
    else
      match G.interPP poly buf with
      | .error _ => none
      | .ok inter =>
        if G.isEmptyP inter then none else some (G.areaP inter)

/-- `_collect_water` (lines 151-169). -/
def _collect_water {P L : Type} (G : GeomOps P L) (fwd : ℚ × ℚ → ℚ × ℚ) (buf : P) :
    List Element → Except PyError ℚ
  | [] => .ok 0
  | el :: rest =>
    if el.tags.natural ≠ some "water" ∧ el.tags.waterway ≠ some "riverbank" then
      _collect_water G fwd buf rest
    else if el.geometry.length < 3 then _collect_water G fwd buf rest
    else
      match extractCoords el.geometry with
      | .error e => .error e
      | .ok cs =>
        match _collect_water G fwd buf rest with
        | .error e => .error e
        | .ok wrest => .ok ((waterTry G buf (List.map fwd cs)).getD 0 + wrest)

/-- The `try` block of `_collect_water_polygons` (lines 181-188). -/
def waterPolyTry {P L : Type} (G : GeomOps P L) (buf : P) (pts : List (ℚ × ℚ)) : Option P :=
  match G.mkPolygon pts with
  | .error _ => none
  | .ok poly0 =>
    let poly := if G.isValidP poly0 then poly0 else G.makeValidP poly0
    if G.isValidP poly = false then none
    else
      match G.interPP poly buf with
      | .error _ => none
      | .ok inter =>
        if G.isEmptyP inter then none else some inter

/-- `_collect_water_polygons` (lines 171-189). -/
def _collect_water_polygons {P L : Type} (G : GeomOps P L) (fwd : ℚ × ℚ → ℚ × ℚ) (buf : P) :
    List Element → Except PyError (List P)
  | [] => .ok []
  | el :: rest =>
    if el.tags.natural ≠ some "water" ∧ el.tags.waterway ≠ some "riverbank" then
      _collect_water_polygons G fwd buf rest
    else if el.geometry.length < 3 then _collect_water_polygons G fwd buf rest
    else
      match extractCoords el.geometry with
      | .error e => .error e
      | .ok cs =>
        match _collect_water_polygons G fwd buf rest with
        | .error e => .error e
        | .ok ws =>
          match waterPolyTry G buf (List.map fwd cs) with
          | some w => .ok (w :: ws)
          | none => .ok ws

/-- One entry of `road_details` (lines 247-253). -/
structure RoadDetail (L : Type) where
  geom : L
  width : Option ℚ
  width_source : String
  highway : String
  name : String
  deriving DecidableEq

/-- The "SMART SOURCE DECISION" (lines 237-245): keep an explicit source,
otherwise promote any numeric width of at least 3.0 m to `"osm"`. -/
def finalSourceOf (width : Option ℚ) (source : Option String) : String :=
  if source = some "osm" then "osm"
  else if source = some "lanes" then "lanes"
  else
    match width with
    | some w => if 3 ≤ w then "osm" else "fallback"
    | none => "fallback"

/-- `if width and seg_len > 0: road_area_total += seg_len * width`
(lines 234-235), with Python truthiness of `width`. -/
def segContrib (width : Option ℚ) (l : ℚ) : ℚ :=
  match width with
  | none => 0
  | some w => if w ≠ 0 ∧ 0 < l then l * w else 0

/-- Total shapely length of a multi-part clip result (sum of components). -/
def segsLen {P L : Type} (G : GeomOps P L) : List L → ℚ
  | [] => 0
  | s :: rest => G.lenL s + segsLen G rest

/-- Road-area contribution of every segment of one clipped road. -/
def segsContrib {P L : Type} (G : GeomOps P L) (width : Option ℚ) : List L → ℚ
  | [] => 0
  | s :: rest => segContrib width (G.lenL s) + segsContrib G width rest

/-- The `road_details.append({...})` record for each segment (lines 232-253). -/
def mkDetails {L : Type} (rd : RawRoad L) (segs : List L) :
    List (RoadDetail L) :=
  List.map (fun s =>
    { geom := s, width := rd.width,
      width_source := finalSourceOf rd.width rd.width_source,
      highway := rd.highway, name := rd.name }) segs

/-- The road-clipping loop of `get_congestion_features` (lines 218-253):
returns (`road_area_total`, `road_details`).  `G.clipLP rd.geom buf` is the
list of connected components of `line.intersection(buf)` (the code's
`segments`); a road is skipped when the intersection is empty or its total
length is below 1 m. -/
def clipRoadsLoop {P L : Type} (G : GeomOps P L) (buf : P) :
    List (RawRoad L) → ℚ × List (RoadDetail L)
  | [] => (0, [])
  | rd :: rest =>
    if (G.clipLP rd.geom buf).isEmpty ∨ segsLen G (G.clipLP rd.geom buf) < 1 then
      clipRoadsLoop G buf rest
    else
      ((segsContrib G rd.width (G.clipLP rd.geom buf)) + (clipRoadsLoop G buf rest).1,
       mkDetails rd (G.clipLP rd.geom buf) ++ (clipRoadsLoop G buf rest).2)

/-- `sum(p.area for p, _ in buildings_with_type)` (line 256). -/
def sumAreas {P L : Type} (G : GeomOps P L) : List (P × String) → ℚ
  | [] => 0
  | b :: rest => G.areaP b.1 + sumAreas G rest

/-- `type_areas[btype] = type_areas.get(btype, 0) + area` on an
insertion-ordered dict. -/
def assocAdd (k : String) (v : ℚ) : List (String × ℚ) → List (String × ℚ)
  | [] => [(k, v)]
  | (k1, v1) :: rest => if k1 = k then (k1, v1 + v) :: rest else (k1, v1) :: assocAdd k v rest

/-- The building-type statistics loop (lines 260-263). -/
def buildTypeAreas {P L : Type} (G : GeomOps P L) (bs : List (P × String)) :
    List (String × ℚ) :=
  bs.foldl (fun acc b => assocAdd b.2 (G.areaP b.1) acc) []

/-- The `metrics` dict (lines 266-278).  The ratio fields are named `_frac`
here (`building_coverage_frac` is the code's `building_coverage_ratio`,
etc.). -/
structure Metrics where
  analysis_area_m2 : ℚ
  total_building_area_m2 : ℚ
  building_coverage_frac : ℚ
  total_road_area_m2 : ℚ
  road_area_coverage : ℚ
  water_area_m2 : ℚ
  water_coverage_frac : ℚ
  true_open_space_m2 : ℚ
  true_open_space_frac : ℚ
  detected_buildings : ℕ
  building_types_area : List (String × ℚ)
  deriving DecidableEq

/-- Assembly of the metrics dict (lines 254-278).  Python raises
`ZeroDivisionError` on the ratio divisions exactly when
`analysis_area_m2 == 0` (i.e. `radius == 0`). -/
def assembleMetrics (area b r w : ℚ) (nb : ℕ) (ta : List (String × ℚ)) :
    Except PyError Metrics :=
  if area = 0 then .error .zeroDivision
  else
    .ok { analysis_area_m2 := area,
          total_building_area_m2 := b,
          building_coverage_frac := b / area,
          total_road_area_m2 := r,
          road_area_coverage := r / area,
          water_area_m2 := w,
          water_coverage_frac := w / area,
          true_open_space_m2 := area - b - r - w,
          true_open_space_frac := (area - b - r - w) / area,
          detected_buildings := nb,
          building_types_area := ta }

/-- The tuple returned by `get_congestion_features` (lines 280-288); the
two pyproj transformers are omitted (they are the unchanged `fwd`/`inv`
arguments). -/
structure CongestionResult (P L : Type) where
  metrics : Metrics
  buildings : List (P × String)
  road_details : List (RoadDetail L)
  buf : P
  water_polygons : List P
  deriving DecidableEq

/-- `get_congestion_features` (lines 191-288).  The Overpass query string
only parameterises the network oracle, so it is not materialised; the disk
is `G.buffer (fwd (lng, lat)) radius` exactly as `_buffer_circle` builds
it.  Note: there is no validation of `lat`, `lng` or `radius` anywhere. -/
def get_congestion_features {P L : Type} (G : GeomOps P L) (fwd : ℚ × ℚ → ℚ × ℚ)
    (lat lng radius : ℚ) (post : ℕ → String → PostOutcome) (parse : String → Option ℚ) :
    Except PyError (CongestionResult P L) :=
  match _overpass post with
  | .error e => .error e
  | .ok data =>
    match _collect_buildings G fwd (G.buffer (fwd (lng, lat)) radius) data with
    | .error e => .error e
    | .ok bs =>
      match _collect_roads G fwd parse data with
      | .error e => .error e
      | .ok roads =>
        match _collect_water G fwd (G.buffer (fwd (lng, lat)) radius) data with
        | .error e => .error e
        | .ok wa =>
          match _collect_water_polygons G fwd (G.buffer (fwd (lng, lat)) radius) data with
          | .error e => .error e
          | .ok wps =>
            match assembleMetrics (npPi * radius ^ 2) (sumAreas G bs)
                (clipRoadsLoop G (G.buffer (fwd (lng, lat)) radius) roads).1 wa
                bs.length (buildTypeAreas G bs) with
            | .error e => .error e
            | .ok m =>
              .ok { metrics := m, buildings := bs,
                    road_details := (clipRoadsLoop G (G.buffer (fwd (lng, lat)) radius) roads).2,
                    buf := G.buffer (fwd (lng, lat)) radius,
                    water_polygons := wps }

/-- The land-accounting recomputation in `src/app.py` (lines 63-75):
`effective_land_area = max(total_area_m2 - water_area, 1)` and
`true_open_space = effective_land_area - buildings - roads`.
(`used_area_frac` is the script's `used_area_ratio`.) -/
structure AppDerived where
  effective_land_area : ℚ
  used_area_frac : ℚ
  true_open_space : ℚ
  deriving DecidableEq

/-- `app.py` lines 63-75, as a function of the slider radius and the
metrics record returned by the pipeline. -/
def appDerive (radius : ℚ) (m : Metrics) : AppDerived :=
  { effective_land_area := max (npPi * radius ^ 2 - m.water_area_m2) 1,
    used_area_frac := (m.total_building_area_m2 + m.total_road_area_m2) /
      max (npPi * radius ^ 2 - m.water_area_m2) 1,
    true_open_space := max (npPi * radius ^ 2 - m.water_area_m2) 1 -
      m.total_building_area_m2 - m.total_road_area_m2 }

/-! ## Concrete fixtures used by witnesses and counterexamples -/

/-- A well-formed geometry point at the origin. -/
def goodPoint : OsmPoint := { coords := some (0, 0) }

/-- A malformed geometry point (its dict is missing `lon`/`lat`). -/
def badPoint : OsmPoint := { coords := none }

/-- A trivial geometry backend on unit polygons and unit lines. -/
def G0 : GeomOps Unit Unit :=
  { buffer := fun _ _ => (), mkPolygon := fun _ => .ok (), isValidP := fun _ => true,
    makeValidP := fun p => p, interPP := fun _ _ => .ok (), isEmptyP := fun _ => true,
    areaP := fun _ => 0, mkLine := fun _ => .ok (), lenL := fun _ => 0,
    clipLP := fun _ _ => [] }

/-- A parse oracle on which no tag value parses as a number. -/
def parse0 : String → Option ℚ := fun _ => none

/-- A parse oracle modelling `float("5.5") = 5.5`. -/
def parse1 : String → Option ℚ := fun s => if s = "5.5" then some (11 / 2) else none

/-- Network oracle: every request succeeds with an empty `elements` list. -/
def post200 : ℕ → String → PostOutcome := fun _ _ => .response 200 (.ok [])

/-- Network oracle: every request gets HTTP 503. -/
def post503 : ℕ → String → PostOutcome := fun _ _ => .response 503 (.error ())

/-- The pipeline result on an empty map with radius 500. -/
def res0 : CongestionResult Unit Unit :=
  { metrics := { analysis_area_m2 := npPi * 500 ^ 2,
                 total_building_area_m2 := 0,
                 building_coverage_frac := 0,
                 total_road_area_m2 := 0,
                 road_area_coverage := 0,
                 water_area_m2 := 0,
                 water_coverage_frac := 0,
                 true_open_space_m2 := npPi * 500 ^ 2,
                 true_open_space_frac := 1,
                 detected_buildings := 0,
                 building_types_area := [] },
    buildings := [], road_details := [], buf := (), water_polygons := [] }

/-- Geometry backend whose line constructor succeeds with a 2 m line. -/
def Gline : GeomOps Unit Unit :=
  { buffer := fun _ _ => (), mkPolygon := fun _ => .ok (), isValidP := fun _ => true,
    makeValidP := fun p => p, interPP := fun _ _ => .ok (), isEmptyP := fun _ => true,
    areaP := fun _ => 0, mkLine := fun _ => .ok (), lenL := fun _ => 2,
    clipLP := fun _ _ => [] }

/-- A highway way with an explicit `width="5.5"` tag and two vertices. -/
def el1 : Element :=
  { type := "way", tags := { highway := some "primary", width := some "5.5" },
    geometry := [goodPoint, goodPoint] }

/-- Geometry backend whose clip yields a single 5 m segment. -/
def G3 : GeomOps Unit Unit :=
  { buffer := fun _ _ => (), mkPolygon := fun _ => .ok (), isValidP := fun _ => true,
    makeValidP := fun p => p, interPP := fun _ _ => .ok (), isEmptyP := fun _ => true,
    areaP := fun _ => 0, mkLine := fun _ => .ok (), lenL := fun _ => 5,
    clipLP := fun _ _ => [()] }

/-- A raw road carrying a 7 m fallback width. -/
def rd3 : RawRoad Unit :=
  { geom := (), width := some 7, width_source := some "fallback",
    highway := "residential", name := "" }

/-- The single `road_details` entry the clip loop produces from `rd3`:
its fallback source is promoted to `"osm"`. -/
def d3 : RoadDetail Unit :=
  { geom := (), width := some 7, width_source := "osm",
    highway := "residential", name := "" }

/-- Geometry backend on `ℕ`-labelled lines: the label is the length in
metres, and clipping splits every line into a 1 m and a 2 m segment. -/
def G7 : GeomOps Unit ℕ :=
  { buffer := fun _ _ => (), mkPolygon := fun _ => .ok (), isValidP := fun _ => true,
    makeValidP := fun p => p, interPP := fun _ _ => .ok (), isEmptyP := fun _ => true,
    areaP := fun _ => 0, mkLine := fun _ => .ok 0, lenL := fun n => (n : ℚ),
    clipLP := fun _ _ => [1, 2] }

/-- A raw road with a lanes-derived 7 m width. -/
def rd7 : RawRoad ℕ :=
  { geom := 3, width := some 7, width_source := some "lanes",
    highway := "secondary", name := "" }

/-- Geometry backend on `ℕ`-labelled lines where clipping keeps the whole
line as one segment. -/
def G1 : GeomOps Unit ℕ :=
  { buffer := fun _ _ => (), mkPolygon := fun _ => .ok (), isValidP := fun _ => true,
    makeValidP := fun p => p, interPP := fun _ _ => .ok (), isEmptyP := fun _ => true,
    areaP := fun _ => 0, mkLine := fun _ => .ok 5, lenL := fun n => (n : ℚ),
    clipLP := fun n _ => [n] }

/-- A residential way with neither `width` nor `lanes` tags. -/
def elRoad : Element :=
  { type := "way", tags := { highway := some "residential" },
    geometry := [goodPoint, goodPoint] }

/-- Network oracle: every request succeeds with a single residential way. -/
def post1road : ℕ → String → PostOutcome := fun _ _ => .response 200 (.ok [elRoad])

/-- The raw road record `_collect_roads` produces from `elRoad`. -/
def rdE : RawRoad ℕ :=
  { geom := 5, width := some 7, width_source := some "fallback",
    highway := "residential", name := "" }

/-- The `road_details` entry produced from `elRoad`: fallback width 7,
promoted to source `"osm"`. -/
def d1 : RoadDetail ℕ :=
  { geom := 5, width := some 7, width_source := "osm",
    highway := "residential", name := "" }

/-- The pipeline result for `post1road` with radius 500. -/
def res1 : CongestionResult Unit ℕ :=
  { metrics := { analysis_area_m2 := npPi * 500 ^ 2,
                 total_building_area_m2 := 0,
                 building_coverage_frac := 0,
                 total_road_area_m2 := 35,
                 road_area_coverage := 35 / (npPi * 500 ^ 2),
                 water_area_m2 := 0,
                 water_coverage_frac := 0,
                 true_open_space_m2 := npPi * 500 ^ 2 - 35,
                 true_open_space_frac := (npPi * 500 ^ 2 - 35) / (npPi * 500 ^ 2),
                 detected_buildings := 0,
                 building_types_area := [] },
    buildings := [], road_details := [d1], buf := (), water_polygons := [] }

/-- A `building=yes` way with three geometry points, the last of which is
missing its coordinates. -/
def elBadCoords : Element :=
  { type := "way", tags := { building := some "yes" },
    geometry := [goodPoint, goodPoint, badPoint] }

/-- Geometry backend whose polygon constructor always raises, so every
feature fails inside the guarded `try` block. -/
def GFail : GeomOps Unit Unit :=
  { buffer := fun _ _ => (), mkPolygon := fun _ => .error (), isValidP := fun _ => true,
    makeValidP := fun p => p, interPP := fun _ _ => .ok (), isEmptyP := fun _ => true,
    areaP := fun _ => 0, mkLine := fun _ => .ok (), lenL := fun _ => 0,
    clipLP := fun _ _ => [] }

/-- A `building=yes` way with three well-formed geometry points. -/
def elTryFail : Element :=
  { type := "way", tags := { building := some "yes" },
    geometry := [goodPoint, goodPoint, goodPoint] }

/-- A metrics record whose water area (1000 m²) exceeds the disk area at
radius 10 m (≈ 314 m²). -/
def m8 : Metrics :=
  { analysis_area_m2 := npPi * 10 ^ 2, total_building_area_m2 := 0,
    building_coverage_frac := 0, total_road_area_m2 := 0, road_area_coverage := 0,
    water_area_m2 := 1000, water_coverage_frac := 1000 / (npPi * 10 ^ 2),
    true_open_space_m2 := npPi * 10 ^ 2 - 1000,
    true_open_space_frac := (npPi * 10 ^ 2 - 1000) / (npPi * 10 ^ 2),
    detected_buildings := 0, building_types_area := [] }

/-! ## Helper lemmas -/

theorem rangeRETRY : List.range RETRY = [0, 1, 2] := rfl

theorem npPi_pos : 0 < npPi := by norm_num [npPi]

theorem area500_ne : npPi * (500 : ℚ) ^ 2 ≠ 0 := by norm_num [npPi]

theorem area10_le_1000 : npPi * (10 : ℚ) ^ 2 ≤ 1000 := by norm_num [npPi]

theorem assembleMetrics_ok {area b r w : ℚ} {nb : ℕ} {ta : List (String × ℚ)} {m : Metrics}
    (h : assembleMetrics area b r w nb ta = .ok m) :
    m.analysis_area_m2 = area ∧ m.total_building_area_m2 = b ∧ m.total_road_area_m2 = r ∧
      m.water_area_m2 = w ∧ m.true_open_space_m2 = area - b - r - w := by
  unfold assembleMetrics at h
  split at h
  · exact absurd h (by simp)
  · rw [Except.ok.injEq] at h
    subst h
    exact ⟨rfl, rfl, rfl, rfl, rfl⟩

theorem get_congestion_features_ok_inv {P L : Type} {G : GeomOps P L} {fwd : ℚ × ℚ → ℚ × ℚ}
    {lat lng radius : ℚ} {post : ℕ → String → PostOutcome} {parse : String → Option ℚ}
    {res : CongestionResult P L}
    (h : get_congestion_features G fwd lat lng radius post parse = .ok res) :
    ∃ data bs roads wa wps,
      _overpass post = .ok data ∧
      _collect_buildings G fwd (G.buffer (fwd (lng, lat)) radius) data = .ok bs ∧
      _collect_roads G fwd parse data = .ok roads ∧
      _collect_water G fwd (G.buffer (fwd (lng, lat)) radius) data = .ok wa ∧
      _collect_water_polygons G fwd (G.buffer (fwd (lng, lat)) radius) data = .ok wps ∧
      assembleMetrics (npPi * radius ^ 2) (sumAreas G bs)
        (clipRoadsLoop G (G.buffer (fwd (lng, lat)) radius) roads).1 wa
        bs.length (buildTypeAreas G bs) = .ok res.metrics ∧
      res.road_details = (clipRoadsLoop G (G.buffer (fwd (lng, lat)) radius) roads).2 := by
  unfold get_congestion_features at h
  cases hov : _overpass post with
  | error e => rw [hov] at h; exact absurd h (by simp)
  | ok data =>
  simp only [hov] at h
  cases hbs : _collect_buildings G fwd (G.buffer (fwd (lng, lat)) radius) data with
  | error e => simp only [hbs] at h; exact absurd h (by simp)
  | ok bs =>
  simp only [hbs] at h
  cases hroads : _collect_roads G fwd parse data with
  | error e => simp only [hroads] at h; exact absurd h (by simp)
  | ok roads =>
  simp only [hroads] at h
  cases hwa : _collect_water G fwd (G.buffer (fwd (lng, lat)) radius) data with
  | error e => simp only [hwa] at h; exact absurd h (by simp)
  | ok wa =>
  simp only [hwa] at h
  cases hwps : _collect_water_polygons G fwd (G.buffer (fwd (lng, lat)) radius) data with
  | error e => simp only [hwps] at h; exact absurd h (by simp)
  | ok wps =>
  simp only [hwps] at h
  cases ham : assembleMetrics (npPi * radius ^ 2) (sumAreas G bs)
      (clipRoadsLoop G (G.buffer (fwd (lng, lat)) radius) roads).1 wa
      bs.length (buildTypeAreas G bs) with
  | error e => simp only [ham] at h; exact absurd h (by simp)
  | ok m =>
  simp only [ham] at h
  rw [Except.ok.injEq] at h
  subst h
  exact ⟨data, bs, roads, wa, wps, rfl, hbs, hroads, hwa, hwps, ham, rfl⟩

/-! ## Claim C2 -/

/-- Claim C2: for every analysis result, the Metrics record satisfies
`total_building_area_m2 + total_road_area_m2 + water_area_m2 +
true_open_space_m2 = analysis_area_m2`, with
`analysis_area_m2 = np.pi * radius^2`.  In the exact-rational model of the
float arithmetic the identity is exact (Python satisfies it up to
floating-point rounding). -/
theorem c2_metrics_area_sum {P L : Type} {G : GeomOps P L} {fwd : ℚ × ℚ → ℚ × ℚ}
    {lat lng radius : ℚ} {post : ℕ → String → PostOutcome} {parse : String → Option ℚ}
    {res : CongestionResult P L}
    (h : get_congestion_features G fwd lat lng radius post parse = .ok res) :
    res.metrics.total_building_area_m2 + res.metrics.total_road_area_m2 +
        res.metrics.water_area_m2 + res.metrics.true_open_space_m2 =
      res.metrics.analysis_area_m2 ∧
    res.metrics.analysis_area_m2 = npPi * radius ^ 2 := by
  obtain ⟨data, bs, roads, wa, wps, _, _, _, _, _, ham, _⟩ := get_congestion_features_ok_inv h
  obtain ⟨ha, hb, hr, hw, ht⟩ := assembleMetrics_ok ham
  refine ⟨?_, ha⟩
  rw [ha, hb, hr, hw, ht]
  ring

/-- Witness for C2: the concrete run on an empty map with radius 500. -/
theorem c2_witness :
    res0.metrics.total_building_area_m2 + res0.metrics.total_road_area_m2 +
        res0.metrics.water_area_m2 + res0.metrics.true_open_space_m2 =
      res0.metrics.analysis_area_m2 :=
  (@c2_metrics_area_sum Unit Unit G0 (fun c => c) 0 0 500 post200 parse0 res0
    (by norm_num [get_congestion_features, _overpass, rangeRETRY, scanAttempts,
      scanEndpoints, tryOnce, OVERPASS_ENDPOINTS, post200, G0, parse0,
      _collect_buildings, _collect_roads, _collect_water, _collect_water_polygons,
      clipRoadsLoop, sumAreas, buildTypeAreas, assembleMetrics, npPi, res0])).1

/-! ## Claims C5 and C6: fetch failure and (missing) input validation -/

theorem overpass_all_503 (post : ℕ → String → PostOutcome)
    (body : ℕ → String → Except Unit (List Element))
    (h : ∀ a u, post a u = .response 503 (body a u)) :
    _overpass post = .error .overpassFailed := by
  unfold _overpass
  rw [rangeRETRY]
  simp [scanAttempts, scanEndpoints, OVERPASS_ENDPOINTS, tryOnce, h]

theorem overpass_first_ok (post : ℕ → String → PostOutcome) (d : List Element)
    (h : ∀ a u, post a u = .response 200 (.ok d)) :
    _overpass post = .ok d := by
  unfold _overpass
  rw [rangeRETRY]
  simp [scanAttempts, scanEndpoints, OVERPASS_ENDPOINTS, tryOnce, h]

/-- Claim C5: when every configured endpoint fails on every attempt of the
retry budget (here: HTTP 503 on each try), `_overpass` raises
`RuntimeError("Overpass failed")` — the realisation of the spec's
`DataFetchError` — and the whole request aborts with that error, so no
(partial) metrics record is produced. -/
theorem c5_all_retries_fail {P L : Type} (G : GeomOps P L) (fwd : ℚ × ℚ → ℚ × ℚ)
    (lat lng radius : ℚ) (parse : String → Option ℚ)
    (post : ℕ → String → PostOutcome) (body : ℕ → String → Except Unit (List Element))
    (h : ∀ a u, post a u = .response 503 (body a u)) :
    _overpass post = .error .overpassFailed ∧
    get_congestion_features G fwd lat lng radius post parse = .error .overpassFailed := by
  have hov := overpass_all_503 post body h
  refine ⟨hov, ?_⟩
  unfold get_congestion_features
  rw [hov]

/-- Witness for C5: the concrete always-503 oracle. -/
theorem c5_witness :
    _overpass post503 = .error .overpassFailed ∧
    get_congestion_features G0 (fun c => c) 0 0 500 post503 parse0 = .error .overpassFailed :=
  c5_all_retries_fail G0 (fun c => c) 0 0 500 parse0 post503
    (fun _ _ => .error ()) (fun _ _ => rfl)

/-- Claim C6 counterexample: the pipeline performs no radius validation at
all.  A call with radius = −100 ≤ 0 does not fail with `InvalidInputError`
(nor with any error): it proceeds through the network fetch and returns a
full result. -/
theorem c6_counterexample :
    (-100 : ℚ) ≤ 0 ∧
    isOkE (get_congestion_features G0 (fun c => c) 0 0 (-100) post200 parse0) = true := by
  constructor
  · norm_num
  · norm_num [get_congestion_features, _overpass, rangeRETRY, scanAttempts, scanEndpoints,
      tryOnce, OVERPASS_ENDPOINTS, post200, G0, parse0, _collect_buildings, _collect_roads,
      _collect_water, _collect_water_polygons, clipRoadsLoop, sumAreas, buildTypeAreas,
      assembleMetrics, npPi, isOkE]

/-- Claim C6 amended: the code never raises `InvalidInputError` and never
validates the radius.  For radius < 0 the network fetch still takes place:
with a fully failing provider the call ends in the fetch error (so network
activity does occur despite the non-positive radius), and with a
successful (empty) fetch it returns a complete metrics record. -/
theorem c6_amended {P L : Type} (G : GeomOps P L) (fwd : ℚ × ℚ → ℚ × ℚ)
    (lat lng radius : ℚ) (parse : String → Option ℚ)
    (post1 post2 : ℕ → String → PostOutcome)
    (hr : radius < 0)
    (h1 : ∀ a u, post1 a u = .response 200 (.ok []))
    (h2 : ∀ a u, post2 a u = .response 503 (.error ())) :
    isOkE (get_congestion_features G fwd lat lng radius post1 parse) = true ∧
    get_congestion_features G fwd lat lng radius post2 parse = .error .overpassFailed := by
  constructor
  · have hov := overpass_first_ok post1 [] h1
    have harea : ¬ (npPi * radius ^ 2 = 0) := by
      have h0 : radius ≠ 0 := ne_of_lt hr
      have hp : npPi ≠ 0 := by norm_num [npPi]
      exact mul_ne_zero hp (pow_ne_zero 2 h0)
    unfold get_congestion_features
    rw [hov]
    simp [_collect_buildings, _collect_roads, _collect_water, _collect_water_polygons,
      clipRoadsLoop, sumAreas, buildTypeAreas, assembleMetrics, harea, isOkE]
  · have hov := overpass_all_503 post2 (fun _ _ => .error ()) h2
    unfold get_congestion_features
    rw [hov]

/-- Witness for the amended C6 at radius −50. -/
theorem c6_witness :
    isOkE (get_congestion_features G0 (fun c => c) 0 0 (-50) post200 parse0) = true ∧
    get_congestion_features G0 (fun c => c) 0 0 (-50) post503 parse0 = .error .overpassFailed :=
  c6_amended G0 (fun c => c) 0 0 (-50) parse0 post200 post503
    (by norm_num) (fun _ _ => rfl) (fun _ _ => rfl)

/-! ## Claim C1: width-selection precedence -/

/-- Claim C1: for every raw way with a `highway` tag, at least 2 vertices
and a projected line at least 1 m long, `_collect_roads` emits one record
whose width/source are chosen by strict precedence: a parsing `width` tag
gives `(max 3.0 w, "osm")`; otherwise a parsing `lanes` tag gives
`(max 7.0 (n * 3.5), "lanes")`; otherwise the `DEFAULT_WIDTHS` table value
for the highway class (motorway 24, trunk 22, primary 18, secondary 14,
tertiary 10, residential 7, unclassified 7, service 6, default 7) with
source `"fallback"`. -/
theorem c1_width_precedence {P L : Type} (G : GeomOps P L) (fwd : ℚ × ℚ → ℚ × ℚ)
    (parse : String → Option ℚ) (el : Element) (cs : List (ℚ × ℚ)) (line : L)
    (ht : el.type = "way") (hh : el.tags.highway ≠ none)
    (hg : 2 ≤ el.geometry.length)
    (hc : extractCoords el.geometry = .ok cs)
    (hl : G.mkLine (List.map fwd cs) = .ok line)
    (hlen : 1 ≤ G.lenL line) :
    _collect_roads G fwd parse [el] =
      .ok [{ geom := line, width := (smartWidth parse el.tags).1,
             width_source := (smartWidth parse el.tags).2,
             highway := el.tags.highway.getD "", name := el.tags.name.getD "" }] ∧
    (∀ ws w, el.tags.width = some ws → parse ws = some w →
      smartWidth parse el.tags = (some (max 3 w), some "osm")) ∧
    (el.tags.width.bind parse = none →
      ∀ ls n, el.tags.lanes = some ls → parse ls = some n →
        smartWidth parse el.tags = (some (max 7 (n * (7 / 2))), some "lanes")) ∧
    (el.tags.width.bind parse = none → el.tags.lanes.bind parse = none →
      smartWidth parse el.tags = (some (defaultWidthOf el.tags.highway), some "fallback")) ∧
    (defaultWidthOf (some "motorway") = 24 ∧ defaultWidthOf (some "trunk") = 22 ∧
      defaultWidthOf (some "primary") = 18 ∧ defaultWidthOf (some "secondary") = 14 ∧
      defaultWidthOf (some "tertiary") = 10 ∧ defaultWidthOf (some "residential") = 7 ∧
      defaultWidthOf (some "unclassified") = 7 ∧ defaultWidthOf (some "service") = 6) ∧
    (∀ s, dwLookup DEFAULT_WIDTHS s = none → defaultWidthOf (some s) = 7) := by
  refine ⟨?_, ?_, ?_, ?_, ?_, ?_⟩
  · have h2 : ¬ (el.geometry.length < 2) := not_lt.mpr hg
    have hl1 : ¬ (G.lenL line < 1) := not_lt.mpr hlen
    simp [_collect_roads, ht, hh, h2, hl1, hc, hl]
  · intro ws w hws hw
    simp [smartWidth, hws, hw]
  · intro hwp ls n hls hn
    cases hwt : el.tags.width with
    | none => simp [smartWidth, hwt, hls, hn]
    | some ws =>
      rw [hwt] at hwp
      simp only [Option.some_bind] at hwp
      simp [smartWidth, hwt, hwp, hls, hn]
  · intro hwp hlp
    cases hwt : el.tags.width with
    | none =>
      cases hlt : el.tags.lanes with
      | none => simp [smartWidth, hwt, hlt]
      | some ls =>
        rw [hlt] at hlp
        simp only [Option.some_bind] at hlp
        simp [smartWidth, hwt, hlt, hlp]
    | some ws =>
      rw [hwt] at hwp
      simp only [Option.some_bind] at hwp
      cases hlt : el.tags.lanes with
      | none => simp [smartWidth, hwt, hwp, hlt]
      | some ls =>
        rw [hlt] at hlp
        simp only [Option.some_bind] at hlp
        simp [smartWidth, hwt, hwp, hlt, hlp]
  · exact ⟨rfl, rfl, rfl, rfl, rfl, rfl, rfl, rfl⟩
  · intro s hs
    simp [defaultWidthOf, hs]

/-- Witness for C1: an explicit `width="5.5"` tag wins with
`max 3.0 5.5` and source `"osm"`. -/
theorem c1_witness :
    smartWidth parse1 el1.tags = (some (max 3 (11 / 2)), some "osm") :=
  (c1_width_precedence Gline (fun c => c) parse1 el1 [(0, 0), (0, 0)] ()
    rfl (by simp [el1]) (by decide) rfl rfl (by decide)).2.1 "5.5" (11 / 2) rfl rfl

/-! ## Claims C3, C7, C10: the road-clipping loop -/

theorem mem_clipRoadsLoop {P L : Type} {G : GeomOps P L} {buf : P} {roads : List (RawRoad L)}
    {d : RoadDetail L} (hd : d ∈ (clipRoadsLoop G buf roads).2) :
    ∃ rd ∈ roads, d.width = rd.width ∧
      d.width_source = finalSourceOf rd.width rd.width_source := by
  induction roads with
  | nil => simp [clipRoadsLoop] at hd
  | cons rd rest ih =>
    simp only [clipRoadsLoop] at hd
    split at hd
    · obtain ⟨rd2, hmem, h1, h2⟩ := ih hd
      exact ⟨rd2, List.mem_cons_of_mem rd hmem, h1, h2⟩
    · simp only [List.mem_append, mkDetails, List.mem_map] at hd
      cases hd with
      | inl h =>
        obtain ⟨s, hs, heq⟩ := h
        refine ⟨rd, List.mem_cons_self rd rest, ?_, ?_⟩ <;> rw [← heq]
      | inr h =>
        obtain ⟨rd2, hmem, h1, h2⟩ := ih h
        exact ⟨rd2, List.mem_cons_of_mem rd hmem, h1, h2⟩

theorem mem_clipRoadsLoop_single {P L : Type} {G : GeomOps P L} {buf : P} {rd : RawRoad L}
    {d : RoadDetail L} (hd : d ∈ (clipRoadsLoop G buf [rd]).2) :
    d.width = rd.width ∧ d.width_source = finalSourceOf rd.width rd.width_source := by
  obtain ⟨rd2, hmem, h1, h2⟩ := mem_clipRoadsLoop hd
  rw [List.mem_singleton] at hmem
  subst hmem
  exact ⟨h1, h2⟩

/-- Claim C3: for every clipped segment emitted into `road_details`, an
explicit pre-clip source (`"osm"` or `"lanes"`) is kept unchanged;
otherwise a segment whose width is present and at least 3.0 m is reported
as `"osm"`; only a segment whose width is missing or below 3.0 m reports
`"fallback"`. -/
theorem c3_source_override {P L : Type} (G : GeomOps P L) (buf : P) (rd : RawRoad L)
    (d : RoadDetail L) (hd : d ∈ (clipRoadsLoop G buf [rd]).2) :
    (rd.width_source = some "osm" → d.width_source = "osm") ∧
    (rd.width_source = some "lanes" → d.width_source = "lanes") ∧
    (rd.width_source ≠ some "osm" → rd.width_source ≠ some "lanes" →
      ((∃ w, rd.width = some w ∧ 3 ≤ w) → d.width_source = "osm") ∧
      ((rd.width = none ∨ ∃ w, rd.width = some w ∧ w < 3) →
        d.width_source = "fallback")) := by
  obtain ⟨-, hs⟩ := mem_clipRoadsLoop_single hd
  rw [hs]
  refine ⟨?_, ?_, ?_⟩
  · intro h1
    simp [finalSourceOf, h1]
  · intro h1
    simp +decide [finalSourceOf, h1]
  · intro h1 h2
    constructor
    · rintro ⟨w, hww, h3⟩
      simp [finalSourceOf, h1, h2, hww, h3]
    · rintro (hww | ⟨w, hww, h3⟩)
      · simp [finalSourceOf, h1, h2, hww]
      · simp [finalSourceOf, h1, h2, hww, not_le.mpr h3]

/-- Witness for C3: a fallback-sourced 7 m road is reported as `"osm"`. -/
theorem c3_witness : d3.width_source = "osm" :=
  ((c3_source_override G3 () rd3 d3
      (by simp +decide [clipRoadsLoop, G3, rd3, segsLen, mkDetails, finalSourceOf, d3])).2.2
    (by decide) (by decide)).1 ⟨7, rfl, by norm_num⟩

theorem segsContrib_pos {P L : Type} (G : GeomOps P L) (w : ℚ) (hw : w ≠ 0)
    (segs : List L) (hpos : ∀ s ∈ segs, 0 < G.lenL s) :
    segsContrib G (some w) segs = w * segsLen G segs := by
  induction segs with
  | nil => simp [segsContrib, segsLen]
  | cons s rest ih =>
    have hs : 0 < G.lenL s := hpos s (List.mem_cons_self s rest)
    have hrest : ∀ t ∈ rest, 0 < G.lenL t := fun t ht => hpos t (List.mem_cons_of_mem s ht)
    simp only [segsContrib, segsLen, segContrib]
    rw [if_pos ⟨hw, hs⟩, ih hrest]
    ring

/-- Claim C7: a road whose clipped line splits into k segments (k ≥ 1,
total clipped length ≥ 1 m) yields exactly k `road_details` entries, all
with the same width and the same width source; each segment contributes
its length × width, so the area total is width × (sum of segment lengths),
and in the shapely model that sum is precisely the clipped line's total
length (`segsLen` of the component list). -/
theorem c7_split_segments {P L : Type} (G : GeomOps P L) (buf : P) (rd : RawRoad L) (w : ℚ)
    (hw : rd.width = some w) (hwpos : 0 < w)
    (hne : G.clipLP rd.geom buf ≠ [])
    (hlen : 1 ≤ segsLen G (G.clipLP rd.geom buf))
    (hpos : ∀ s ∈ G.clipLP rd.geom buf, 0 < G.lenL s) :
    (clipRoadsLoop G buf [rd]).2.length = (G.clipLP rd.geom buf).length ∧
    (∀ d ∈ (clipRoadsLoop G buf [rd]).2,
      d.width = some w ∧ d.width_source = finalSourceOf rd.width rd.width_source) ∧
    (clipRoadsLoop G buf [rd]).1 = w * segsLen G (G.clipLP rd.geom buf) := by
  have hcond : ¬ ((G.clipLP rd.geom buf).isEmpty = true ∨
      segsLen G (G.clipLP rd.geom buf) < 1) := by
    push_neg
    refine ⟨?_, hlen⟩
    simpa [List.isEmpty_iff] using hne
  refine ⟨?_, ?_, ?_⟩
  · simp only [clipRoadsLoop, if_neg hcond]
    simp [mkDetails]
  · intro d hd
    obtain ⟨h1, h2⟩ := mem_clipRoadsLoop_single hd
    rw [hw] at h1
    exact ⟨h1, h2⟩
  · simp only [clipRoadsLoop, if_neg hcond]
    rw [hw, segsContrib_pos G w (ne_of_gt hwpos) (G.clipLP rd.geom buf) hpos]
    simp [clipRoadsLoop]

/-- Witness for C7: a line clipped into a 1 m and a 2 m segment gives two
entries. -/
theorem c7_witness :
    (clipRoadsLoop G7 () [rd7]).2.length = (G7.clipLP rd7.geom ()).length :=
  (c7_split_segments G7 () rd7 7 rfl (by norm_num)
    (by simp [G7]) (by norm_num [G7, segsLen])
    (by intro s hs; fin_cases hs <;> norm_num [G7])).1

theorem defaultWidthOf_ge3 (h : Option String) : 3 ≤ defaultWidthOf h := by
  cases h with
  | none => norm_num [defaultWidthOf]
  | some s =>
    simp only [defaultWidthOf, DEFAULT_WIDTHS, dwLookup]
    split_ifs <;> norm_num

theorem smartWidth_width_ge3 (parse : String → Option ℚ) (tags : Tags) :
    ∃ w, (smartWidth parse tags).1 = some w ∧ 3 ≤ w := by
  cases hwt : tags.width with
  | some ws =>
    cases hpw : parse ws with
    | some w =>
      refine ⟨max 3 w, ?_, le_max_left 3 w⟩
      simp [smartWidth, hwt, hpw]
    | none =>
      cases hlt : tags.lanes with
      | some ls =>
        cases hpl : parse ls with
        | some n =>
          refine ⟨max 7 (n * (7 / 2)), ?_, le_trans (by norm_num) (le_max_left 7 _)⟩
          simp [smartWidth, hwt, hpw, hlt, hpl]
        | none =>
          refine ⟨defaultWidthOf tags.highway, ?_, defaultWidthOf_ge3 tags.highway⟩
          simp [smartWidth, hwt, hpw, hlt, hpl]
      | none =>
        refine ⟨defaultWidthOf tags.highway, ?_, defaultWidthOf_ge3 tags.highway⟩
        simp [smartWidth, hwt, hpw, hlt]
  | none =>
    cases hlt : tags.lanes with
    | some ls =>
      cases hpl : parse ls with
      | some n =>
        refine ⟨max 7 (n * (7 / 2)), ?_, le_trans (by norm_num) (le_max_left 7 _)⟩
        simp [smartWidth, hwt, hlt, hpl]
      | none =>
        refine ⟨defaultWidthOf tags.highway, ?_, defaultWidthOf_ge3 tags.highway⟩
        simp [smartWidth, hwt, hlt, hpl]
    | none =>
      refine ⟨defaultWidthOf tags.highway, ?_, defaultWidthOf_ge3 tags.highway⟩
      simp [smartWidth, hwt, hlt]

theorem collect_roads_width {P L : Type} {G : GeomOps P L} {fwd : ℚ × ℚ → ℚ × ℚ}
    {parse : String → Option ℚ} {els : List Element} {roads : List (RawRoad L)}
    (h : _collect_roads G fwd parse els = .ok roads) :
    ∀ rd ∈ roads, ∃ w, rd.width = some w ∧ 3 ≤ w := by
  induction els generalizing roads with
  | nil =>
    simp only [_collect_roads, Except.ok.injEq] at h
    subst h
    intro rd hrd
    simp at hrd
  | cons el rest ih =>
    simp only [_collect_roads] at h
    by_cases h1 : el.type ≠ "way"
    · rw [if_pos h1] at h; exact ih h
    · rw [if_neg h1] at h
      by_cases h2 : el.tags.highway = none
      · rw [if_pos h2] at h; exact ih h
      · rw [if_neg h2] at h
        by_cases h3 : el.geometry.length < 2
        · rw [if_pos h3] at h; exact ih h
        · rw [if_neg h3] at h
          cases hc : extractCoords el.geometry with
          | error e => simp only [hc] at h; exact absurd h (by simp)
          | ok cs =>
            simp only [hc] at h
            cases hline : G.mkLine (List.map fwd cs) with
            | error e => simp only [hline] at h; exact absurd h (by simp)
            | ok line =>
              simp only [hline] at h
              by_cases h4 : G.lenL line < 1
              · rw [if_pos h4] at h; exact ih h
              · rw [if_neg h4] at h
                cases hrec : _collect_roads G fwd parse rest with
                | error e => simp only [hrec] at h; exact absurd h (by simp)
                | ok rs =>
                  simp only [hrec, Except.ok.injEq] at h
                  subst h
                  intro rd hrd
                  rcases List.mem_cons.mp hrd with heq | hmem
                  · subst heq
                    exact smartWidth_width_ge3 parse el.tags
                  · exact ih hrec rd hmem

/-- Claim C10 (implicit): every `road_details` entry returned by the
pipeline has width source `"osm"` or `"lanes"`; `"fallback"` can never
appear because every width `_collect_roads` assigns is at least 3 m
(fallback table minimum 6 m), so the post-clip override promotes it. -/
theorem c10_no_fallback_output {P L : Type} {G : GeomOps P L} {fwd : ℚ × ℚ → ℚ × ℚ}
    {lat lng radius : ℚ} {post : ℕ → String → PostOutcome} {parse : String → Option ℚ}
    {res : CongestionResult P L}
    (h : get_congestion_features G fwd lat lng radius post parse = .ok res) :
    ∀ d ∈ res.road_details, d.width_source = "osm" ∨ d.width_source = "lanes" := by
  obtain ⟨data, bs, roads, wa, wps, _, _, hroads, _, _, _, hrd⟩ :=
    get_congestion_features_ok_inv h
  intro d hd
  rw [hrd] at hd
  obtain ⟨rd, hmem, hdw, hds⟩ := mem_clipRoadsLoop hd
  obtain ⟨w, hww, h3⟩ := collect_roads_width hroads rd hmem
  rw [hds]
  by_cases h1 : rd.width_source = some "osm"
  · left; simp [finalSourceOf, h1]
  · by_cases h2 : rd.width_source = some "lanes"
    · right; simp [finalSourceOf, h1, h2]
    · left; simp [finalSourceOf, h1, h2, hww, h3]

theorem fs_fallback_promoted : finalSourceOf (some 7) (some "fallback") = "osm" := by decide

theorem ov_res1 : _overpass post1road = .ok [elRoad] := rfl

theorem bs_res1 (buf : Unit) :
    _collect_buildings G1 (fun c => c) buf [elRoad] = .ok [] := rfl

theorem roads_res1 : _collect_roads G1 (fun c => c) parse0 [elRoad] = .ok [rdE] := rfl

theorem wa_res1 (buf : Unit) : _collect_water G1 (fun c => c) buf [elRoad] = .ok 0 := rfl

theorem wps_res1 (buf : Unit) :
    _collect_water_polygons G1 (fun c => c) buf [elRoad] = .ok [] := rfl

theorem clip_res1 (buf : Unit) : clipRoadsLoop G1 buf [rdE] = (35, [d1]) := by
  norm_num [clipRoadsLoop, G1, rdE, segsLen, segsContrib, segContrib, mkDetails, d1,
    fs_fallback_promoted]

theorem pipe_res1 :
    get_congestion_features G1 (fun c => c) 0 0 500 post1road parse0 = .ok res1 := by
  unfold get_congestion_features
  simp only [ov_res1, bs_res1, roads_res1, wa_res1, wps_res1, clip_res1]
  norm_num [sumAreas, buildTypeAreas, assembleMetrics, npPi, res1, G1]

/-- Witness for C10: the concrete fallback-width road is reported with
source `"osm"`. -/
theorem c10_witness : d1.width_source = "osm" ∨ d1.width_source = "lanes" :=
  c10_no_fallback_output pipe_res1 d1 (by simp [res1])

/-! ## Claim C4: error policy of the classifiers -/

/-- Claim C4 counterexample: a single raw feature with bad coordinates in
its geometry points is NOT silently skipped: the coordinate extraction in
`_collect_buildings` sits outside the `try`, so its `KeyError` propagates
to the caller and aborts the batch. -/
theorem c4_counterexample :
    _collect_buildings G0 (fun c => c) () [elBadCoords] = .error .keyError := rfl

/-- Claim C4 amended: a malformed feature whose failure occurs inside the
guarded classification block (polygon construction, validity repair,
intersection) — or whose geometry is degenerate — is silently skipped and
the classification of the remaining elements is unchanged; but a geometry
point with missing coordinates raises a `KeyError` that propagates out of
the classification functions. -/
theorem c4_skip_invariance {P L : Type} (G : GeomOps P L) (fwd : ℚ × ℚ → ℚ × ℚ) (buf : P)
    (pre post : List Element) (el : Element) (cs : List (ℚ × ℚ))
    (hc : extractCoords el.geometry = .ok cs)
    (hskip : buildingTry G buf (List.map fwd cs) (_get_building_type el.tags) = none) :
    _collect_buildings G fwd buf (pre ++ el :: post) =
      _collect_buildings G fwd buf (pre ++ post) := by
  induction pre with
  | nil =>
    simp only [List.nil_append]
    by_cases h1 : pyTruthyS el.tags.building = false
    · simp only [_collect_buildings]
      rw [if_pos h1]
    · simp only [_collect_buildings]
      rw [if_neg h1]
      by_cases h2 : el.geometry.length < 3
      · rw [if_pos h2]
      · rw [if_neg h2]
        simp only [hc]
        cases hrec : _collect_buildings G fwd buf post with
        | error e => simp only [hrec]
        | ok bs => simp only [hrec, hskip]
  | cons a pre ih =>
    simp only [List.cons_append, _collect_buildings, List.append_eq, ih]

/-- Witness for the amended C4: a feature whose polygon constructor raises
is skipped without affecting the (empty) remainder. -/
theorem c4_witness :
    _collect_buildings GFail (fun c => c) () [elTryFail] =
      _collect_buildings GFail (fun c => c) () [] :=
  c4_skip_invariance GFail (fun c => c) () [] [] elTryFail [(0, 0), (0, 0), (0, 0)] rfl rfl

/-! ## Claim C9: building-type normalisation -/

/-- Claim C9 counterexample: the type tag does not preserve the raw value
exactly as given: `building=House` is normalised to `building=house`, not
kept as `building=House`. -/
theorem c9_counterexample :
    _get_building_type { building := some "House" } = "building=house" ∧
    "building=house" ≠ "building=House" := by
  exact ⟨rfl, by decide⟩

/-- Claim C9 amended: for a way with a non-empty `building` tag value `b`,
the type tag is `"building=yes"` when the *stripped and lowercased* value
is one of `yes`, `1`, `true`, and otherwise `"building="` followed by the
stripped-lowercased value (not the raw value verbatim). -/
theorem c9_normalised_type (tags : Tags) (b : String)
    (hb : tags.building = some b) (hne : b ≠ "") :
    _get_building_type tags =
      if pyLower (pyStrip b) = "yes" ∨ pyLower (pyStrip b) = "1" ∨
         pyLower (pyStrip b) = "true"
      then "building=yes" else "building=" ++ pyLower (pyStrip b) := by
  unfold _get_building_type
  simp only [hb]
  rw [if_neg hne]

/-- Witness for the amended C9: `" House "` is normalised to
`building=house`. -/
theorem c9_witness :
    _get_building_type { building := some " House " } =
      if pyLower (pyStrip " House ") = "yes" ∨ pyLower (pyStrip " House ") = "1" ∨
         pyLower (pyStrip " House ") = "true"
      then "building=yes" else "building=" ++ pyLower (pyStrip " House ") :=
  c9_normalised_type { building := some " House " } " House " rfl (by decide)

/-! ## Claim C8: app-side true open space -/

/-- Claim C8: in the app-side land accounting, true open space equals
effective land area minus buildings minus roads, where effective land area
is disk area minus water floored at 1 m²; in particular when the water
area reaches the disk area, the 1 m² floor applies before the buildings
and roads are subtracted. -/
theorem c8_true_open_space (radius : ℚ) (m : Metrics)
    (hw : npPi * radius ^ 2 ≤ m.water_area_m2) :
    (appDerive radius m).true_open_space =
      (appDerive radius m).effective_land_area -
        m.total_building_area_m2 - m.total_road_area_m2 ∧
    (appDerive radius m).effective_land_area =
      max (npPi * radius ^ 2 - m.water_area_m2) 1 ∧
    (appDerive radius m).effective_land_area = 1 ∧
    (appDerive radius m).true_open_space =
      1 - m.total_building_area_m2 - m.total_road_area_m2 := by
  have hmax : max (npPi * radius ^ 2 - m.water_area_m2) 1 = 1 :=
    max_eq_right (le_trans (sub_nonpos.mpr hw) zero_le_one)
  refine ⟨rfl, rfl, hmax, ?_⟩
  show max (npPi * radius ^ 2 - m.water_area_m2) 1 -
      m.total_building_area_m2 - m.total_road_area_m2 = _
  rw [hmax]

/-- Witness for C8: water 1000 m² over a 10 m disk (≈ 314 m²) floors the
effective land area at 1 m². -/
theorem c8_witness :
    (appDerive 10 m8).true_open_space =
      1 - m8.total_building_area_m2 - m8.total_road_area_m2 :=
  (c8_true_open_space 10 m8 (by simpa [m8] using area10_le_1000)).2.2.2

end UrbanCongestion
